import Mathlib

/-! BnB: the session glue of `UBnBGameInstance`

A shallow embedding of `Source/BnB/BnBGameInstance.cpp`.

* The member variables the handlers read and write (`DesiredServerName`,
  `SessionSearch`) form the record `GameInstance`.
* What a handler reads from the engine (the online subsystem's name, the
  named session of the session interface, the resolved connect string) is the
  record `Engine`; a handler receives the engine's current report as an
  argument.
* Every call a handler makes into the engine (session interface, travel,
  on-screen message, log) is recorded, in program order, as a `Call`; a
  handler is a function to the new member variables and the calls made.
* The engine objects the handlers dereference without a test
  (`SessionInterface`, `OnlineSubsystem`, `GEngine`, `GetWorld()`,
  `GetFirstLocalPlayerController()`) are taken to be present.
* `TArray::operator[]` outside the bounds has no value (the engine's range
  check stops the program, and without the check the read is undefined): a
  handler that reaches it ends in a `Fault`.

`SESSION_NAME` and `SERVER_NAME_SETTINGS_KEY` come from `BnBGameInstance.h`
and are parameters (`Header`).
-/

namespace BnB

/-! ## Engine data read or written by the handlers -/

/-- An engine name, `FName`; names are compared as the engine compares them. -/
abbrev FName := String

/-- The two constants the source takes from `BnBGameInstance.h`. -/
structure Header where
  SESSION_NAME : FName
  SERVER_NAME_SETTINGS_KEY : FName
  deriving DecidableEq, Repr

/-- The engine constant `SEARCH_PRESENCE`. -/
def SEARCH_PRESENCE : FName := "PRESENCESEARCH"

/-- The engine constant `INDEX_NONE`. -/
def INDEX_NONE : Int := -1

/-- Engine enumeration `EOnlineDataAdvertisementType`. -/
inductive EOnlineDataAdvertisementType
  | DontAdvertise
  | ViaPingOnly
  | ViaOnlineService
  | ViaOnlineServiceAndPing
  deriving DecidableEq, Repr

/-- Engine enumeration `EOnlineComparisonOp`. -/
inductive EOnlineComparisonOp
  | Equals
  | NotEquals
  | GreaterThan
  | GreaterThanEquals
  | LessThan
  | LessThanEquals
  | Near
  | In
  | NotIn
  deriving DecidableEq, Repr

/-- Engine enumeration `ETravelType`. -/
inductive ETravelType
  | TRAVEL_Absolute
  | TRAVEL_Partial
  | TRAVEL_Relative
  deriving DecidableEq, Repr

/-- Engine enumeration `EOnJoinSessionCompleteResult::Type`. -/
inductive EOnJoinSessionCompleteResult
  | Success
  | SessionIsFull
  | SessionDoesNotExist
  | CouldNotRetrieveAddress
  | AlreadyInSession
  | UnknownError
  deriving DecidableEq, Repr

/-- Engine enumeration `ENetworkFailure::Type`. -/
inductive ENetworkFailure
  | NetDriverAlreadyExists
  | NetDriverCreateFailure
  | NetDriverListenFailure
  | ConnectionLost
  | ConnectionTimeout
  | FailureReceived
  | OutdatedClient
  | OutdatedServer
  | PendingConnectionFailure
  | NetGuidMismatch
  | NetChecksumMismatch
  deriving DecidableEq, Repr

/-- The colours of `FColor` the source uses. -/
inductive FColor
  | Green
  | Blue
  deriving DecidableEq, Repr

/-- The value of a session or query setting: the source stores an `FString`
(the server name) and a `bool` (the presence query). -/
inductive FVariantData
  | String (Value : String)
  | Bool (Value : Bool)
  deriving DecidableEq, Repr

/-- The call `Set(Key, Value, Tag)` on a settings map: the entry of `Key` is replaced
when there is one and appended otherwise. -/
def SettingsSet {τ : Type} (m : List (FName × FVariantData × τ)) (Key : FName)
    (Value : FVariantData) (Tag : τ) : List (FName × FVariantData × τ) :=
  if m.any (fun kv => kv.1 == Key) then
    m.map (fun kv => if kv.1 == Key then (Key, Value, Tag) else kv)
  else
    m ++ [(Key, Value, Tag)]

/-- The value stored under `Key` in a settings map. -/
def SettingsGet {τ : Type} (m : List (FName × FVariantData × τ)) (Key : FName) :
    Option FVariantData :=
  (m.find? (fun kv => kv.1 == Key)).map (fun kv => kv.2.1)

/-- The fields of `FOnlineSessionSettings` that `CreateSession` assigns, and the
custom settings map. -/
structure FOnlineSessionSettings where
  bIsLANMatch : Bool
  bUseLobbiesIfAvailable : Bool
  NumPublicConnections : Int
  bShouldAdvertise : Bool
  bUsesPresence : Bool
  Settings : List (FName × FVariantData × EOnlineDataAdvertisementType)
  deriving DecidableEq, Repr

/-- A default-constructed `FOnlineSessionSettings` (`FOnlineSessionSettings SessionSettings;`). -/
def FOnlineSessionSettings.ctor : FOnlineSessionSettings :=
  { bIsLANMatch := false
    bUseLobbiesIfAvailable := false
    NumPublicConnections := 0
    bShouldAdvertise := false
    bUsesPresence := false
    Settings := [] }

/-- A search result, `FOnlineSessionSearchResult`: what `IsValid()` answers and
the session id string. -/
structure FOnlineSessionSearchResult where
  IsValid : Bool
  SessionIdStr : String
  deriving DecidableEq, Repr

/-- The fields of `FOnlineSessionSearch` the source touches. -/
structure FOnlineSessionSearch where
  MaxSearchResults : Int
  QuerySettings : List (FName × FVariantData × EOnlineComparisonOp)
  SearchResults : List FOnlineSessionSearchResult
  deriving DecidableEq, Repr

/-- A fresh search object (`new FOnlineSessionSearch()`): no results, no query
setting, the engine's default of one result. -/
def FOnlineSessionSearch.ctor : FOnlineSessionSearch :=
  { MaxSearchResults := 1, QuerySettings := [], SearchResults := [] }

/-- What the handlers read from the engine. -/
structure Engine where
  /-- The value of `OnlineSubsystem->GetSubsystemName()`. -/
  SubsystemName : FName
  /-- Whether `SessionInterface->GetNamedSession(Name)` is not `nullptr`. -/
  NamedSession : FName → Bool
  /-- The outcome of `SessionInterface->GetResolvedConnectString(Name, Address)`:
  the address written on success, `none` when the call returns false. -/
  ResolvedConnectString : FName → Option String

/-- A call of a handler into the engine. -/
inductive Call
  | CreateSession (HostingPlayerNum : Nat) (SessionName : FName)
      (NewSessionSettings : FOnlineSessionSettings)
  | DestroySession (SessionName : FName)
  | FindSessions (SearchingPlayerNum : Nat) (SearchSettings : FOnlineSessionSearch)
  | JoinSession (LocalUserNum : Nat) (SessionName : FName)
      (DesiredSession : FOnlineSessionSearchResult)
  | ServerTravel (URL : String)
  | ClientTravel (URL : String) (TravelType : ETravelType)
  | AddOnScreenDebugMessage (Key : Int) (TimeToDisplay : Nat) (DisplayColor : FColor)
      (DebugMessage : String)
  | UE_LOG (Message : String)
  deriving DecidableEq, Repr

/-- The member variables of `UBnBGameInstance` the handlers read and write;
`SessionSearch` is a shared pointer, `none` when it is not valid. -/
structure GameInstance where
  DesiredServerName : String
  SessionSearch : Option FOnlineSessionSearch
  deriving DecidableEq, Repr

/-- How a handler can stop without returning. -/
inductive Fault
  /-- An index outside `[0, Num)` given to `TArray::operator[]`. -/
  | ArrayIndexOutOfBounds (Index : Int) (Num : Nat)
  deriving DecidableEq, Repr

/-- The `int32` a `uint32` converts to (the index type of `TArray`). -/
def toInt32 (n : Nat) : Int :=
  if n % 2 ^ 32 < 2 ^ 31 then ((n % 2 ^ 32 : Nat) : Int) else ((n % 2 ^ 32 : Nat) : Int) - 2 ^ 32

/-- The operator `TArray::operator[]`: the element inside the bounds, a fault outside. -/
def TArrayIndex {α : Type} (a : List α) (Index : Int) : Except Fault α :=
  if 0 ≤ Index ∧ Index < (a.length : Int) then
    match a[Index.toNat]? with
    | some x => .ok x
    | none => .error (.ArrayIndexOutOfBounds Index a.length)
  else
    .error (.ArrayIndexOutOfBounds Index a.length)

/-! ## The handlers of `UBnBGameInstance` -/

namespace UBnBGameInstance

/-- The handler `UBnBGameInstance::CreateSession`. -/
def CreateSession (h : Header) (e : Engine) (gi : GameInstance) : GameInstance × List Call :=
  let SessionSettings := FOnlineSessionSettings.ctor
  let SessionSettings :=
    if e.SubsystemName == "NULL" then
      { SessionSettings with bIsLANMatch := true }
    else
      { SessionSettings with bIsLANMatch := false }
  let SessionSettings := { SessionSettings with bUseLobbiesIfAvailable := true }
  let SessionSettings := { SessionSettings with NumPublicConnections := 5 }
  let SessionSettings := { SessionSettings with bShouldAdvertise := true }
  let SessionSettings := { SessionSettings with bUsesPresence := true }
  let SessionSettings := { SessionSettings with
    Settings := SettingsSet SessionSettings.Settings h.SERVER_NAME_SETTINGS_KEY
      (.String gi.DesiredServerName) .ViaOnlineServiceAndPing }
  (gi, [.CreateSession 0 h.SESSION_NAME SessionSettings])

/-- The handler `UBnBGameInstance::Host`. -/
def Host (h : Header) (e : Engine) (gi : GameInstance) (ServerName : String) :
    GameInstance × List Call :=
  let ExistingSession := e.NamedSession h.SESSION_NAME
  let gi := { gi with DesiredServerName := ServerName }
  if ExistingSession then
    (gi, [.DestroySession h.SESSION_NAME])
  else
    CreateSession h e gi

/-- The handler `UBnBGameInstance::Join`; the `uint32` argument is a natural number taken
modulo `2 ^ 32`. -/
def Join (h : Header) (gi : GameInstance) (Index : Nat) : Except Fault (GameInstance × List Call) :=
  match gi.SessionSearch with
  | none => .ok (gi, [])
  | some Search =>
    match TArrayIndex Search.SearchResults (toInt32 Index) with
    | .error f => .error f
    | .ok DesiredSession => .ok (gi, [.JoinSession 0 h.SESSION_NAME DesiredSession])

/-- The handler `UBnBGameInstance::JoinFriend`. -/
def JoinFriend (h : Header) (gi : GameInstance) (InviteResult : FOnlineSessionSearchResult) :
    GameInstance × List Call :=
  let shown := Call.AddOnScreenDebugMessage INDEX_NONE 10 .Green "Joining friend"
  if !InviteResult.IsValid then
    (gi, [shown])
  else
    (gi, [shown, .JoinSession 0 h.SESSION_NAME InviteResult])

/-- The handler `UBnBGameInstance::RefreshServerList`. -/
def RefreshServerList (gi : GameInstance) : GameInstance × List Call :=
  let gi := { gi with SessionSearch := some FOnlineSessionSearch.ctor }
  match gi.SessionSearch with
  | some Search =>
    let Search := { Search with MaxSearchResults := 100 }
    let Search := { Search with
      QuerySettings := SettingsSet Search.QuerySettings SEARCH_PRESENCE (.Bool true) .Equals }
    ({ gi with SessionSearch := some Search }, [.FindSessions 0 Search])
  | none => (gi, [])

/-- The handler `UBnBGameInstance::OnCreateSessionComplete`. -/
def OnCreateSessionComplete (gi : GameInstance) (SessionName : FName) (Success : Bool) :
    GameInstance × List Call :=
  let _ := SessionName
  if !Success then
    (gi, [.UE_LOG "Could not create session"])
  else
    (gi, [.AddOnScreenDebugMessage INDEX_NONE 10 .Green "Hosting",
          .ServerTravel "/Game/TopDown/Maps/TopDownMap?listen"])

/-- The handler `UBnBGameInstance::OnDestroySessionComplete`. -/
def OnDestroySessionComplete (h : Header) (e : Engine) (gi : GameInstance) (SessionName : FName)
    (Success : Bool) : GameInstance × List Call :=
  let _ := SessionName
  if Success then
    CreateSession h e gi
  else
    (gi, [])

/-- The handler `UBnBGameInstance::OnFindSessionsComplete`. -/
def OnFindSessionsComplete (gi : GameInstance) (Success : Bool) : GameInstance × List Call :=
  match Success, gi.SessionSearch with
  | true, some Search =>
    (gi, Call.UE_LOG "Finished find session" ::
      Search.SearchResults.map (fun SearchResult =>
        Call.AddOnScreenDebugMessage INDEX_NONE 10 .Blue
          ("Found session: " ++ SearchResult.SessionIdStr)))
  | _, _ => (gi, [])

/-- The handler `UBnBGameInstance::OnJoinSessionComplete`. -/
def OnJoinSessionComplete (e : Engine) (gi : GameInstance) (SessionName : FName)
    (Result : EOnJoinSessionCompleteResult) : GameInstance × List Call :=
  let _ := Result
  match e.ResolvedConnectString SessionName with
  | none => (gi, [])
  | some Address =>
    (gi, [.AddOnScreenDebugMessage INDEX_NONE 10 .Green ("Joining " ++ Address),
          .ClientTravel Address .TRAVEL_Absolute])

/-- The handler `UBnBGameInstance::OnSessionUserInviteAccepted`. -/
def OnSessionUserInviteAccepted (h : Header) (gi : GameInstance) (Success : Bool)
    (ControllerId : Int) (UserId : Option String) (InviteResult : FOnlineSessionSearchResult) :
    GameInstance × List Call :=
  let _ := (Success, ControllerId, UserId)
  JoinFriend h gi InviteResult

/-- The handler `UBnBGameInstance::OnNetworkFailure`; the `UWorld*` and `UNetDriver*`
arguments, which the body does not read, are left out. -/
def OnNetworkFailure (gi : GameInstance) (FailureType : ENetworkFailure) (ErrorString : String) :
    GameInstance × List Call :=
  let _ := (FailureType, ErrorString)
  (gi, [.ClientTravel "/Game/TopDown/Maps/TopDownMap" .TRAVEL_Absolute])

end UBnBGameInstance

/-! ## Handlers in sequence

The engine calls the handlers one at a time on one thread. A `World` is the
member variables together with what the engine currently reports and, as
bookkeeping for the properties below, the session requests the handlers have
issued whose completion has not been delivered yet. -/

/-- A call or delegate the engine or the application can deliver. -/
inductive Input
  | Host (ServerName : String)
  | Join (Index : Nat)
  | JoinFriend (InviteResult : FOnlineSessionSearchResult)
  | RefreshServerList
  | OnCreateSessionComplete (SessionName : FName) (Success : Bool)
  | OnDestroySessionComplete (SessionName : FName) (Success : Bool)
  | OnFindSessionsComplete (Success : Bool)
  | OnJoinSessionComplete (SessionName : FName) (Result : EOnJoinSessionCompleteResult)
  | OnSessionUserInviteAccepted (Success : Bool) (ControllerId : Int) (UserId : Option String)
      (InviteResult : FOnlineSessionSearchResult)
  | OnNetworkFailure (FailureType : ENetworkFailure) (ErrorString : String)
  deriving DecidableEq, Repr

/-- The handler an input runs. -/
def handle (h : Header) (e : Engine) (gi : GameInstance) :
    Input → Except Fault (GameInstance × List Call)
  | .Host ServerName => .ok (UBnBGameInstance.Host h e gi ServerName)
  | .Join Index => UBnBGameInstance.Join h gi Index
  | .JoinFriend r => .ok (UBnBGameInstance.JoinFriend h gi r)
  | .RefreshServerList => .ok (UBnBGameInstance.RefreshServerList gi)
  | .OnCreateSessionComplete n ok => .ok (UBnBGameInstance.OnCreateSessionComplete gi n ok)
  | .OnDestroySessionComplete n ok => .ok (UBnBGameInstance.OnDestroySessionComplete h e gi n ok)
  | .OnFindSessionsComplete ok => .ok (UBnBGameInstance.OnFindSessionsComplete gi ok)
  | .OnJoinSessionComplete n r => .ok (UBnBGameInstance.OnJoinSessionComplete e gi n r)
  | .OnSessionUserInviteAccepted ok c u r =>
    .ok (UBnBGameInstance.OnSessionUserInviteAccepted h gi ok c u r)
  | .OnNetworkFailure t s => .ok (UBnBGameInstance.OnNetworkFailure gi t s)

/-- A request to the session interface that is answered later by a completion
delegate. -/
def Call.isSessionRequest : Call → Bool
  | .CreateSession _ _ _ => true
  | .DestroySession _ => true
  | .FindSessions _ _ => true
  | .JoinSession _ _ _ => true
  | _ => false

/-- A create or destroy request. -/
def Call.isCreateOrDestroy : Call → Bool
  | .CreateSession _ _ _ => true
  | .DestroySession _ => true
  | _ => false

/-- A travel of the world or of the local player controller. -/
def Call.isTravel : Call → Bool
  | .ServerTravel _ => true
  | .ClientTravel _ _ => true
  | _ => false

/-- The requests to the session interface among the calls of a handler. -/
def sessionRequests (calls : List Call) : List Call := calls.filter Call.isSessionRequest

/-- The travels among the calls of a handler. -/
def travels (calls : List Call) : List Call := calls.filter Call.isTravel

/-- Whether an outstanding request is the one a completion delegate answers. -/
def answers : Input → Call → Bool
  | .OnCreateSessionComplete n _, .CreateSession _ m _ => n == m
  | .OnDestroySessionComplete n _, .DestroySession m => n == m
  | .OnFindSessionsComplete _, .FindSessions _ _ => true
  | .OnJoinSessionComplete n _, .JoinSession _ m _ => n == m
  | _, _ => false

/-- The member variables, the engine's current report, and the session
requests issued and not yet completed (oldest first). -/
structure World where
  engine : Engine
  gi : GameInstance
  outstanding : List Call

/-- The outstanding requests once an input has been delivered: a completion
delegate answers the oldest request of its kind and session name. -/
def World.completed (w : World) (i : Input) : List Call := w.outstanding.eraseP (answers i)

/-- Delivery of one input: the completion is taken off the outstanding
requests, the handler runs on the engine's current report, and the session
requests it issues become outstanding. -/
def World.deliver (h : Header) (w : World) (i : Input) : Except Fault (World × List Call) :=
  match handle h w.engine w.gi i with
  | .error f => .error f
  | .ok (gi, calls) =>
    .ok ({ engine := w.engine, gi := gi, outstanding := w.completed i ++ sessionRequests calls },
         calls)

/-- What happens between handlers: an input is delivered, or the engine changes
what it reports. -/
inductive Event
  | deliver (i : Input)
  | engine (e : Engine)

/-- One event. -/
def World.step (h : Header) (w : World) : Event → Except Fault (World × List Call)
  | .deliver i => w.deliver h i
  | .engine e => .ok ({ w with engine := e }, [])

/-- A sequence of events, with all the calls made, in order. -/
def run (h : Header) : World → List Event → Except Fault (World × List Call)
  | w, [] => .ok (w, [])
  | w, ev :: rest =>
    match w.step h ev with
    | .error f => .error f
    | .ok (w1, calls1) =>
      match run h w1 rest with
      | .error f => .error f
      | .ok (w2, calls2) => .ok (w2, calls1 ++ calls2)

/-- Whether an event is a `Host` call, a completion delegate of the session
interface, or a change of the engine's report. -/
def Event.isHostOrCompletion : Event → Bool
  | .deliver (.Host _) => true
  | .deliver (.OnCreateSessionComplete _ _) => true
  | .deliver (.OnDestroySessionComplete _ _) => true
  | .deliver (.OnFindSessionsComplete _) => true
  | .deliver (.OnJoinSessionComplete _ _) => true
  | .engine _ => true
  | _ => false

/-- The create and destroy requests an event is bound to issue: one for a `Host`
call, one for a destroy completion that reports success, none otherwise. -/
def Event.createOrDestroyDue : Event → Nat
  | .deliver (.Host _) => 1
  | .deliver (.OnDestroySessionComplete _ true) => 1
  | _ => 0

/-- No create or destroy request is issued while an earlier one is outstanding:
at every event that issues such requests, none is outstanding once the
completion the event delivers has been taken off, and the event issues one. -/
def Serialised (h : Header) : World → List Event → Bool
  | _, [] => true
  | w, ev :: rest =>
    match w.step h ev with
    | .error _ => true
    | .ok (w1, calls) =>
      let before :=
        match ev with
        | .deliver i => (w.completed i).filter Call.isCreateOrDestroy
        | .engine _ => w.outstanding.filter Call.isCreateOrDestroy
      let issued := calls.filter Call.isCreateOrDestroy
      (issued.isEmpty || (before.isEmpty && issued.length == 1)) && Serialised h w1 rest

/-- The state the specification calls Idle: the engine holds no session of the
managed name and no request is outstanding. -/
def World.Idle (h : Header) (w : World) : Bool :=
  !w.engine.NamedSession h.SESSION_NAME && w.outstanding.isEmpty

/-- The settings `CreateSession` has assembled when it calls the session
interface, for the subsystem name it read and the desired server name. -/
def builtSettings (h : Header) (e : Engine) (ServerName : String) : FOnlineSessionSettings :=
  { bIsLANMatch := (e.SubsystemName == "NULL")
    bUseLobbiesIfAvailable := true
    NumPublicConnections := 5
    bShouldAdvertise := true
    bUsesPresence := true
    Settings := [(h.SERVER_NAME_SETTINGS_KEY, .String ServerName, .ViaOnlineServiceAndPing)] }

/-- The create and destroy requests the amended serialisation property expects of
one event, given what the engine reports and the desired server name before
it: a `Host` call issues one request for the managed session name, a
`DestroySession` when the engine holds a session of that name and otherwise a
`CreateSession` carrying the name given to the call; a destroy completion
reporting success issues one `CreateSession` for the managed session name
carrying the desired server name; every other event issues none. Requests
outstanding play no part. -/
def Event.requestsDue (h : Header) (e : Engine) (Desired : String) : Event → List Call
  | .deliver (.Host ServerName) =>
    if e.NamedSession h.SESSION_NAME then
      [.DestroySession h.SESSION_NAME]
    else
      [.CreateSession 0 h.SESSION_NAME (builtSettings h e ServerName)]
  | .deliver (.OnDestroySessionComplete _ true) =>
    [.CreateSession 0 h.SESSION_NAME (builtSettings h e Desired)]
  | _ => []

/-- What the engine reports after an event: only a change of its report alters it. -/
def Event.engineAfter (e : Engine) : Event → Engine
  | .engine e1 => e1
  | _ => e

/-- The desired server name after an event: the name of the latest `Host` call. -/
def Event.desiredAfter (Desired : String) : Event → String
  | .deliver (.Host ServerName) => ServerName
  | _ => Desired

/-- The create and destroy requests expected of a sequence of events, in order. -/
def requestsDue (h : Header) : Engine → String → List Event → List Call
  | _, _, [] => []
  | e, Desired, ev :: rest =>
    ev.requestsDue h e Desired ++ requestsDue h (ev.engineAfter e) (ev.desiredAfter Desired) rest

/-! ## Concrete data for the examples -/

/-- A header for the examples. -/
def exHeader : Header := { SESSION_NAME := "GameSession", SERVER_NAME_SETTINGS_KEY := "ServerName" }

/-- An engine on the Steam subsystem that holds no session and resolves no address. -/
def exEngine : Engine :=
  { SubsystemName := "STEAM", NamedSession := fun _ => false, ResolvedConnectString := fun _ => none }

/-- The engine of `exEngine` once it holds the managed session. -/
def exEngineHolding : Engine :=
  { exEngine with NamedSession := fun n => n == exHeader.SESSION_NAME }

/-- The member variables before any handler ran. -/
def exFresh : GameInstance := { DesiredServerName := "", SessionSearch := none }

/-- Three search results. -/
def exResults : List FOnlineSessionSearchResult :=
  [{ IsValid := true, SessionIdStr := "s0" }, { IsValid := true, SessionIdStr := "s1" },
   { IsValid := true, SessionIdStr := "s2" }]

/-- The member variables once a search has returned `exResults`. -/
def exFound : GameInstance :=
  { DesiredServerName := "",
    SessionSearch := some { MaxSearchResults := 100,
                            QuerySettings := [(SEARCH_PRESENCE, .Bool true, .Equals)],
                            SearchResults := exResults } }

/-- A world before any handler ran. -/
def exWorld : World := { engine := exEngine, gi := exFresh, outstanding := [] }

/-- A world whose session "Alpha" is active: the engine holds it and nothing is
outstanding. -/
def exWorldActive : World :=
  { engine := exEngineHolding, gi := { exFresh with DesiredServerName := "Alpha" },
    outstanding := [] }

/-- The settings `CreateSession` builds on the Steam subsystem for a server name. -/
def exSettings (ServerName : String) : FOnlineSessionSettings :=
  { bIsLANMatch := false, bUseLobbiesIfAvailable := true, NumPublicConnections := 5,
    bShouldAdvertise := true, bUsesPresence := true,
    Settings := [("ServerName", .String ServerName, .ViaOnlineServiceAndPing)] }

/-- The search object `RefreshServerList` hands to `FindSessions`. -/
def searchIssued : FOnlineSessionSearch :=
  { MaxSearchResults := 100, QuerySettings := [(SEARCH_PRESENCE, .Bool true, .Equals)],
    SearchResults := [] }

/-- A world in which the creation of session "Alpha" is under way: the request is
outstanding and the engine already holds the session. -/
def exWorldCreating : World :=
  { engine := exEngineHolding, gi := { exFresh with DesiredServerName := "Alpha" },
    outstanding := [.CreateSession 0 "GameSession" (exSettings "Alpha")] }

end BnB


/-! ## Properties -/

namespace BnB

open UBnBGameInstance

/-! ### Helper lemmas -/

theorem CreateSession_calls (h : Header) (e : Engine) (gi : GameInstance) :
    (CreateSession h e gi).2 =
      [Call.CreateSession 0 h.SESSION_NAME (builtSettings h e gi.DesiredServerName)] := by
  unfold CreateSession builtSettings
  by_cases hn : e.SubsystemName = "NULL" <;>
    simp [hn, FOnlineSessionSettings.ctor, SettingsSet]

theorem CreateSession_gi (h : Header) (e : Engine) (gi : GameInstance) :
    (CreateSession h e gi).1 = gi := rfl

theorem filter_found_messages (p : Call → Bool) (hp : ∀ k t c m, p (.AddOnScreenDebugMessage k t c m) = false)
    (rs : List FOnlineSessionSearchResult) (f : FOnlineSessionSearchResult → String) :
    (rs.map (fun r => Call.AddOnScreenDebugMessage INDEX_NONE 10 .Blue (f r))).filter p = [] := by
  induction rs with
  | nil => rfl
  | cons r rs ih => simp [List.filter, hp, ih]

theorem deliver_of_handle (h : Header) (w : World) (i : Input) (r : GameInstance × List Call)
    (hr : handle h w.engine w.gi i = .ok r) :
    w.deliver h i =
      .ok ({ engine := w.engine, gi := r.1, outstanding := w.completed i ++ sessionRequests r.2 },
           r.2) := by
  simp [World.deliver, hr]

theorem step_requestsDue (h : Header) (w : World) (ev : Event)
    (hev : ev.isHostOrCompletion = true) :
    ∃ w1 calls, w.step h ev = .ok (w1, calls) ∧
      calls.filter Call.isCreateOrDestroy = ev.requestsDue h w.engine w.gi.DesiredServerName ∧
      w1.engine = ev.engineAfter w.engine ∧
      w1.gi.DesiredServerName = ev.desiredAfter w.gi.DesiredServerName := by
  cases ev with
  | engine e => exact ⟨_, _, rfl, rfl, rfl, rfl⟩
  | deliver i =>
    cases i with
    | Host s =>
      refine ⟨_, _, deliver_of_handle h w (.Host s) (Host h w.engine w.gi s) rfl, ?_, rfl, ?_⟩
      · by_cases hx : w.engine.NamedSession h.SESSION_NAME = true
        · simp [Host, hx, Call.isCreateOrDestroy, Event.requestsDue]
        · simp [Host, hx, CreateSession_calls, Call.isCreateOrDestroy, Event.requestsDue]
      · by_cases hx : w.engine.NamedSession h.SESSION_NAME = true
        · simp [Host, hx, Event.desiredAfter]
        · simp [Host, hx, CreateSession_gi, Event.desiredAfter]
    | OnCreateSessionComplete n ok =>
      refine ⟨_, _, deliver_of_handle h w (.OnCreateSessionComplete n ok)
        (OnCreateSessionComplete w.gi n ok) rfl, ?_, rfl, ?_⟩
      · cases ok <;> simp [OnCreateSessionComplete, Call.isCreateOrDestroy, Event.requestsDue]
      · cases ok <;> simp [OnCreateSessionComplete, Event.desiredAfter]
    | OnDestroySessionComplete n ok =>
      refine ⟨_, _, deliver_of_handle h w (.OnDestroySessionComplete n ok)
        (OnDestroySessionComplete h w.engine w.gi n ok) rfl, ?_, rfl, ?_⟩
      · cases ok <;>
          simp [OnDestroySessionComplete, CreateSession_calls, Call.isCreateOrDestroy,
            Event.requestsDue]
      · cases ok <;> simp [OnDestroySessionComplete, CreateSession_gi, Event.desiredAfter]
    | OnFindSessionsComplete ok =>
      refine ⟨_, _, deliver_of_handle h w (.OnFindSessionsComplete ok)
        (OnFindSessionsComplete w.gi ok) rfl, ?_, rfl, ?_⟩
      · cases ok <;> cases hs : w.gi.SessionSearch <;>
          simp [OnFindSessionsComplete, hs, Call.isCreateOrDestroy, Event.requestsDue,
            filter_found_messages]
      · cases ok <;> cases hs : w.gi.SessionSearch <;>
          simp [OnFindSessionsComplete, hs, Event.desiredAfter]
    | OnJoinSessionComplete n r =>
      refine ⟨_, _, deliver_of_handle h w (.OnJoinSessionComplete n r)
        (OnJoinSessionComplete w.engine w.gi n r) rfl, ?_, rfl, ?_⟩
      · cases hr : w.engine.ResolvedConnectString n <;>
          simp [OnJoinSessionComplete, hr, Call.isCreateOrDestroy, Event.requestsDue]
      · cases hr : w.engine.ResolvedConnectString n <;>
          simp [OnJoinSessionComplete, hr, Event.desiredAfter]
    | Join _ => simp [Event.isHostOrCompletion] at hev
    | JoinFriend _ => simp [Event.isHostOrCompletion] at hev
    | RefreshServerList => simp [Event.isHostOrCompletion] at hev
    | OnSessionUserInviteAccepted _ _ _ _ => simp [Event.isHostOrCompletion] at hev
    | OnNetworkFailure _ _ => simp [Event.isHostOrCompletion] at hev

theorem requestsDue_length (h : Header) (e : Engine) (Desired : String) (ev : Event) :
    (ev.requestsDue h e Desired).length = ev.createOrDestroyDue := by
  cases ev with
  | engine e1 => rfl
  | deliver i =>
    cases i with
    | Host s =>
      by_cases hx : e.NamedSession h.SESSION_NAME = true <;>
        simp [Event.requestsDue, Event.createOrDestroyDue, hx]
    | OnDestroySessionComplete n ok => cases ok <;> rfl
    | _ => rfl

theorem completed_of_no_answer (w : World) (i : Input) (hi : ∀ c, answers i c = false) :
    w.completed i = w.outstanding := by
  unfold World.completed
  exact List.eraseP_of_forall_not (fun c _ => by simp [hi c])

theorem toInt32_of_lt (n : Nat) (hn : n < 2 ^ 31) : toInt32 n = (n : Int) := by
  have h1 : n % 2 ^ 32 = n := Nat.mod_eq_of_lt (by omega)
  unfold toInt32
  rw [h1, if_pos hn]

/-- With a valid search object and an index inside the results, `Join` issues the
one `JoinSession` call for the result at that index. -/
theorem Join_in_bounds (h : Header) (gi : GameInstance) (Search : FOnlineSessionSearch)
    (Index : Nat) (r : FOnlineSessionSearchResult) (hs : gi.SessionSearch = some Search)
    (hn : Index < 2 ^ 31) (hr : Search.SearchResults[Index]? = some r) :
    Join h gi Index = .ok (gi, [.JoinSession 0 h.SESSION_NAME r]) := by
  have hlt : Index < Search.SearchResults.length := by
    rcases Nat.lt_or_ge Index Search.SearchResults.length with hlt | hge
    · exact hlt
    · rw [List.getElem?_eq_none hge] at hr
      cases hr
  have hlt2 : (Index : Int) < (Search.SearchResults.length : Int) := by exact_mod_cast hlt
  simp [Join, hs, TArrayIndex, toInt32_of_lt Index hn, hlt2, hr]

/-- With a valid search object and a 32-bit index at or past the end of the
results, `Join` does not return: the element access is out of bounds. -/
theorem Join_out_of_bounds (h : Header) (gi : GameInstance) (Search : FOnlineSessionSearch)
    (Index : Nat) (hs : gi.SessionSearch = some Search) (h32 : Index < 2 ^ 32)
    (hge : Search.SearchResults.length ≤ Index) :
    Join h gi Index =
      .error (.ArrayIndexOutOfBounds (toInt32 Index) Search.SearchResults.length) := by
  have hnot : ¬ (0 ≤ toInt32 Index ∧ toInt32 Index < (Search.SearchResults.length : Int)) := by
    have h1 : Index % 2 ^ 32 = Index := Nat.mod_eq_of_lt h32
    unfold toInt32
    rw [h1]
    split_ifs with hlt <;> omega
  simp [Join, hs, TArrayIndex, hnot]

/-- Without a valid search object `Join` returns at once and makes no call. -/
theorem Join_without_search (h : Header) (gi : GameInstance) (Index : Nat)
    (hs : gi.SessionSearch = none) : Join h gi Index = .ok (gi, []) := by
  simp [Join, hs]

/-! ### The claims -/

/-- C1, the code at the failing input: with a valid search object holding three
results, `Join(5)` passes the only test `Join` makes and indexes the results out
of bounds on the way to `JoinSession`, so it does not return; likewise
`Join(0)` on the empty results of a search just started. -/
theorem Join_past_the_results_faults :
    Join exHeader exFound 5 = .error (.ArrayIndexOutOfBounds 5 3) ∧
    Join exHeader (RefreshServerList exFresh).1 0 = .error (.ArrayIndexOutOfBounds 0 0) :=
  ⟨rfl, rfl⟩

/-- C2: when no named session exists, the calls of `Host(s)` are exactly one
`CreateSession` (so no `DestroySession`), for player 0 and the managed session
name, whose settings carry server name `s`, five public connections, advertise
and presence set, and LAN mode exactly when the subsystem's name is "NULL". -/
theorem Host_without_session_creates (h : Header) (e : Engine) (gi : GameInstance) (s : String)
    (hno : e.NamedSession h.SESSION_NAME = false) :
    ∃ st : FOnlineSessionSettings,
      (Host h e gi s).2 = [Call.CreateSession 0 h.SESSION_NAME st] ∧
      SettingsGet st.Settings h.SERVER_NAME_SETTINGS_KEY = some (.String s) ∧
      st.NumPublicConnections = 5 ∧ st.bShouldAdvertise = true ∧ st.bUsesPresence = true ∧
      (st.bIsLANMatch = true ↔ e.SubsystemName = "NULL") := by
  refine ⟨builtSettings h e s, ?_, ?_, rfl, rfl, rfl, ?_⟩
  · simp only [Host, hno]
    exact CreateSession_calls h e _
  · simp [SettingsGet, builtSettings]
  · simp [builtSettings]

/-- C2 at a concrete input: `Host("Alpha")` on an engine that holds no session. -/
theorem Host_without_session_creates_witness :
    exEngine.NamedSession exHeader.SESSION_NAME = false ∧
    ∃ st : FOnlineSessionSettings,
      (Host exHeader exEngine exFresh "Alpha").2 = [Call.CreateSession 0 exHeader.SESSION_NAME st] ∧
      SettingsGet st.Settings exHeader.SERVER_NAME_SETTINGS_KEY = some (.String "Alpha") ∧
      st.NumPublicConnections = 5 ∧ st.bShouldAdvertise = true ∧ st.bUsesPresence = true ∧
      (st.bIsLANMatch = true ↔ exEngine.SubsystemName = "NULL") :=
  ⟨rfl, Host_without_session_creates exHeader exEngine exFresh "Alpha" rfl⟩

/-- C3: when a named session exists, the calls of `Host(s)` are exactly one
`DestroySession` (so no `CreateSession`); and the destroy completion that then
arrives with success, whatever the engine reports by then and whatever session
name it carries, makes exactly one `CreateSession` call whose server-name
setting is `s`. -/
theorem Host_with_session_destroys_then_recreates (h : Header) (e e1 : Engine)
    (gi : GameInstance) (s : String) (SessionName : FName)
    (hex : e.NamedSession h.SESSION_NAME = true) :
    (Host h e gi s).2 = [Call.DestroySession h.SESSION_NAME] ∧
    ∃ st : FOnlineSessionSettings,
      (OnDestroySessionComplete h e1 (Host h e gi s).1 SessionName true).2
        = [Call.CreateSession 0 h.SESSION_NAME st] ∧
      SettingsGet st.Settings h.SERVER_NAME_SETTINGS_KEY = some (.String s) := by
  refine ⟨by simp [Host, hex], builtSettings h e1 s, ?_, ?_⟩
  · simp only [OnDestroySessionComplete, if_true]
    rw [CreateSession_calls]
    simp [Host, hex]
  · simp [SettingsGet, builtSettings]

/-- C3 at a concrete input: `Host("Beta")` while the session "Alpha" is held. -/
theorem Host_with_session_destroys_then_recreates_witness :
    exEngineHolding.NamedSession exHeader.SESSION_NAME = true ∧
    (Host exHeader exEngineHolding exWorldActive.gi "Beta").2
      = [Call.DestroySession exHeader.SESSION_NAME] ∧
    ∃ st : FOnlineSessionSettings,
      (OnDestroySessionComplete exHeader exEngine
          (Host exHeader exEngineHolding exWorldActive.gi "Beta").1 "GameSession" true).2
        = [Call.CreateSession 0 exHeader.SESSION_NAME st] ∧
      SettingsGet st.Settings exHeader.SERVER_NAME_SETTINGS_KEY = some (.String "Beta") :=
  ⟨rfl, Host_with_session_destroys_then_recreates exHeader exEngineHolding exEngine
    exWorldActive.gi "Beta" "GameSession" rfl⟩

/-- C4 fails as stated: a destroy completion reporting success that arrives when
no `Host` call was made and no destroy request is outstanding is still followed
by a `CreateSession` call; and a destroy completion reporting failure that
answers the `DestroySession` of `Host("Beta")` is followed by no call. -/
theorem destroy_completion_ignores_recreate_flow :
    exWorld.outstanding = [] ∧
    (exWorld.deliver exHeader (.OnDestroySessionComplete "GameSession" true)).toOption.map Prod.snd
      = some [Call.CreateSession 0 "GameSession" (exSettings "")] ∧
    (run exHeader exWorldActive
        [.deliver (.Host "Beta"),
         .deliver (.OnDestroySessionComplete "GameSession" false)]).toOption.map Prod.snd
      = some [Call.DestroySession "GameSession"] :=
  ⟨rfl, rfl, rfl⟩

/-- C4 as amended: on a destroy completion, whatever requests are outstanding,
the handler returns and its calls are exactly one `CreateSession` (with the
desired server name) when the completion reports success and none when it
reports failure. -/
theorem destroy_completion_creates_on_success (h : Header) (w : World) (SessionName : FName)
    (Success : Bool) :
    ∃ w1, w.deliver h (.OnDestroySessionComplete SessionName Success) =
      .ok (w1, if Success then
                 [Call.CreateSession 0 h.SESSION_NAME (builtSettings h w.engine w.gi.DesiredServerName)]
               else []) := by
  rw [deliver_of_handle h w (.OnDestroySessionComplete SessionName Success)
    (OnDestroySessionComplete h w.engine w.gi SessionName Success) rfl]
  cases Success
  · exact ⟨_, rfl⟩
  · simp only [OnDestroySessionComplete, if_true, CreateSession_calls, CreateSession_gi]
    exact ⟨_, rfl⟩

/-- C5 fails as stated: `Host("Alpha")` issues a `CreateSession`; the engine then
holds the session being created; `Host("Beta")`, called before the create
completion, issues a `DestroySession` while the create request is outstanding. -/
theorem second_Host_overlaps_first :
    Serialised exHeader exWorld
      [.deliver (.Host "Alpha"), .engine exEngineHolding, .deliver (.Host "Beta")] = false ∧
    (run exHeader exWorld
        [.deliver (.Host "Alpha"), .engine exEngineHolding,
         .deliver (.Host "Beta")]).toOption.map (fun r => (r.2, r.1.outstanding))
      = some ([Call.CreateSession 0 "GameSession" (exSettings "Alpha"),
               Call.DestroySession "GameSession"],
              [Call.CreateSession 0 "GameSession" (exSettings "Alpha"),
               Call.DestroySession "GameSession"]) :=
  ⟨rfl, rfl⟩

/-- C5 as amended: a sequence of `Host` calls, completion delegates and changes
of the engine's report runs to its end from every world, whatever requests are
outstanding in it, and the create and destroy requests it issues are, in order,
exactly those of `requestsDue`: for each `Host` call one request for the managed
session name (a `DestroySession` when the engine holds the session, otherwise a
`CreateSession` carrying the name given to that call), for each destroy
completion reporting success one `CreateSession` for the managed session name
carrying the latest desired server name, and none for any other completion; so
they number one for each `Host` call plus one for each successful destroy
completion. -/
theorem Host_requests_one_per_event (h : Header) (evs : List Event) (w : World)
    (hall : ∀ ev ∈ evs, ev.isHostOrCompletion = true) :
    ∃ w1 calls, run h w evs = .ok (w1, calls) ∧
      calls.filter Call.isCreateOrDestroy = requestsDue h w.engine w.gi.DesiredServerName evs ∧
      (calls.filter Call.isCreateOrDestroy).length = (evs.map Event.createOrDestroyDue).sum := by
  induction evs generalizing w with
  | nil => exact ⟨w, [], rfl, rfl, rfl⟩
  | cons ev rest ih =>
    obtain ⟨w1, calls1, hstep, hdue1, heng, hname⟩ :=
      step_requestsDue h w ev (hall ev (List.mem_cons_self _ _))
    obtain ⟨w2, calls2, hrun, hdue2, hlen2⟩ :=
      ih w1 (fun e he => hall e (List.mem_cons_of_mem _ he))
    refine ⟨w2, calls1 ++ calls2, ?_, ?_, ?_⟩
    · simp [run, hstep, hrun]
    · rw [List.filter_append, hdue1, hdue2, heng, hname]
      rfl
    · rw [List.filter_append, List.length_append, hlen2, hdue1, requestsDue_length]
      simp

/-- C5 as amended, at two `Host` calls with no completion between them: the
requests are the `CreateSession` for "Alpha" and then, the create request still
outstanding, the `DestroySession` of the managed session. -/
theorem Host_requests_one_per_event_witness :
    (∀ ev ∈ ([.deliver (.Host "Alpha"), .engine exEngineHolding, .deliver (.Host "Beta")] :
        List Event), ev.isHostOrCompletion = true) ∧
    requestsDue exHeader exWorld.engine exWorld.gi.DesiredServerName
        [.deliver (.Host "Alpha"), .engine exEngineHolding, .deliver (.Host "Beta")]
      = [Call.CreateSession 0 "GameSession" (exSettings "Alpha"),
         Call.DestroySession "GameSession"] ∧
    ∃ w1 calls,
      run exHeader exWorld
        [.deliver (.Host "Alpha"), .engine exEngineHolding, .deliver (.Host "Beta")]
        = .ok (w1, calls) ∧
      calls.filter Call.isCreateOrDestroy
        = requestsDue exHeader exWorld.engine exWorld.gi.DesiredServerName
            [.deliver (.Host "Alpha"), .engine exEngineHolding, .deliver (.Host "Beta")] ∧
      (calls.filter Call.isCreateOrDestroy).length
        = (([.deliver (.Host "Alpha"), .engine exEngineHolding, .deliver (.Host "Beta")] :
              List Event).map Event.createOrDestroyDue).sum :=
  have hall : ∀ ev ∈ ([.deliver (.Host "Alpha"), .engine exEngineHolding,
      .deliver (.Host "Beta")] : List Event), ev.isHostOrCompletion = true := by
    intro ev hev
    simp only [List.mem_cons, List.mem_singleton, List.not_mem_nil, or_false] at hev
    rcases hev with rfl | rfl | rfl <;> rfl
  ⟨hall, rfl, Host_requests_one_per_event exHeader _ exWorld hall⟩

/-- C6 fails as stated: after one `RefreshServerList` its `FindSessions` request
is outstanding, and a second `RefreshServerList` delivered before the completion
issues a second `FindSessions` call, leaving two requests outstanding. -/
theorem second_find_is_issued :
    (run exHeader exWorld [.deliver .RefreshServerList]).toOption.map (fun r => r.1.outstanding)
      = some [Call.FindSessions 0 searchIssued] ∧
    (run exHeader exWorld
        [.deliver .RefreshServerList, .deliver .RefreshServerList]).toOption.map
          (fun r => (r.2, r.1.outstanding))
      = some ([Call.FindSessions 0 searchIssued, Call.FindSessions 0 searchIssued],
              [Call.FindSessions 0 searchIssued, Call.FindSessions 0 searchIssued]) :=
  ⟨rfl, rfl⟩

/-- C6 as amended: in every world, whether or not a find is outstanding and
whatever the current search results are, `RefreshServerList` returns, replaces
the search object by a fresh one (no results, at most 100 results, presence
query) and makes exactly one call, `FindSessions` on that object, which joins
the outstanding requests. -/
theorem RefreshServerList_always_finds (h : Header) (w : World) :
    ∃ w1, w.deliver h .RefreshServerList = .ok (w1, [Call.FindSessions 0 searchIssued]) ∧
      w1.gi = { w.gi with SessionSearch := some searchIssued } ∧
      w1.outstanding = w.outstanding ++ [Call.FindSessions 0 searchIssued] := by
  refine ⟨_, deliver_of_handle h w .RefreshServerList (RefreshServerList w.gi) rfl, rfl, ?_⟩
  show w.completed .RefreshServerList ++ sessionRequests (RefreshServerList w.gi).2 = _
  rw [completed_of_no_answer w _ (fun c => by cases c <;> rfl)]
  rfl

/-- C7 fails as stated: with the session active (held by the engine), the
network-failure handler makes its one travel and nothing else, so the session
is still held and the next `Host` call destroys it first; with a create request
outstanding, the request is still outstanding afterwards. -/
theorem OnNetworkFailure_leaves_session_held :
    (exWorldActive.deliver exHeader (.OnNetworkFailure .ConnectionLost "")).toOption.map
        (fun r => (r.2, r.1.Idle exHeader))
      = some ([Call.ClientTravel "/Game/TopDown/Maps/TopDownMap" .TRAVEL_Absolute], false) ∧
    (run exHeader exWorldActive
        [.deliver (.OnNetworkFailure .ConnectionLost ""),
         .deliver (.Host "Gamma")]).toOption.map Prod.snd
      = some [Call.ClientTravel "/Game/TopDown/Maps/TopDownMap" .TRAVEL_Absolute,
              Call.DestroySession "GameSession"] ∧
    (exWorldCreating.deliver exHeader (.OnNetworkFailure .ConnectionLost "")).toOption.map
        (fun r => (r.1.outstanding, r.1.Idle exHeader))
      = some ([Call.CreateSession 0 "GameSession" (exSettings "Alpha")], false) :=
  ⟨rfl, rfl, rfl⟩

/-- C7 as amended: in every world and for every failure type and error string,
the network-failure handler returns, its calls are exactly one absolute client
travel to the neutral map, and it leaves the member variables, the outstanding
requests and with them whether the coordinator is Idle as they were. -/
theorem OnNetworkFailure_travels_and_keeps_state (h : Header) (w : World)
    (FailureType : ENetworkFailure) (ErrorString : String) :
    ∃ w1, w.deliver h (.OnNetworkFailure FailureType ErrorString) =
        .ok (w1, [Call.ClientTravel "/Game/TopDown/Maps/TopDownMap" .TRAVEL_Absolute]) ∧
      w1.gi = w.gi ∧ w1.outstanding = w.outstanding ∧ w1.Idle h = w.Idle h := by
  have hout : w.completed (.OnNetworkFailure FailureType ErrorString) ++
      sessionRequests (OnNetworkFailure w.gi FailureType ErrorString).2 = w.outstanding := by
    rw [completed_of_no_answer w _ (fun c => by cases c <;> rfl)]
    simp [OnNetworkFailure, sessionRequests, Call.isSessionRequest]
  refine ⟨_, deliver_of_handle h w (.OnNetworkFailure FailureType ErrorString)
    (OnNetworkFailure w.gi FailureType ErrorString) rfl, rfl, hout, ?_⟩
  simp only [World.Idle, hout]

/-- C8: `JoinFriend(r)` leaves the member variables as they were and makes no
travel; its requests to the session interface are exactly one `JoinSession`
carrying `r` when `r` is valid and none when it is not; and an accepted invite,
whatever its success flag, controller and user, does what `JoinFriend` does on
the invite's result. -/
theorem JoinFriend_forwards_valid_results (h : Header) (gi : GameInstance)
    (r : FOnlineSessionSearchResult) (Success : Bool) (ControllerId : Int)
    (UserId : Option String) :
    (JoinFriend h gi r).1 = gi ∧
    sessionRequests (JoinFriend h gi r).2
      = (if r.IsValid then [Call.JoinSession 0 h.SESSION_NAME r] else []) ∧
    travels (JoinFriend h gi r).2 = [] ∧
    OnSessionUserInviteAccepted h gi Success ControllerId UserId r = JoinFriend h gi r := by
  cases hv : r.IsValid <;>
    simp [JoinFriend, hv, sessionRequests, travels, Call.isSessionRequest, Call.isTravel,
      OnSessionUserInviteAccepted]

/-- C9: for every session name and join result, `OnJoinSessionComplete` makes no
travel when the engine resolves no connect string for the session, and exactly
one travel, an absolute client travel to the address, when it resolves one; it
makes no request to the session interface and leaves the member variables as
they were. -/
theorem OnJoinSessionComplete_travels_to_resolved_address (e : Engine) (gi : GameInstance)
    (SessionName : FName) (Result : EOnJoinSessionCompleteResult) :
    travels (OnJoinSessionComplete e gi SessionName Result).2
      = (match e.ResolvedConnectString SessionName with
         | none => []
         | some Address => [Call.ClientTravel Address .TRAVEL_Absolute]) ∧
    sessionRequests (OnJoinSessionComplete e gi SessionName Result).2 = [] ∧
    (OnJoinSessionComplete e gi SessionName Result).1 = gi := by
  cases hr : e.ResolvedConnectString SessionName <;>
    simp [OnJoinSessionComplete, hr, sessionRequests, travels, Call.isSessionRequest,
      Call.isTravel]

/-- C10: for every create completion, `OnCreateSessionComplete` makes no request
to the session interface; on failure it makes no travel, and on success exactly
one travel, a server travel to the top-down map with the listen option. -/
theorem OnCreateSessionComplete_travels_on_success (gi : GameInstance) (SessionName : FName)
    (Success : Bool) :
    sessionRequests (OnCreateSessionComplete gi SessionName Success).2 = [] ∧
    travels (OnCreateSessionComplete gi SessionName Success).2
      = (if Success then [Call.ServerTravel "/Game/TopDown/Maps/TopDownMap?listen"] else []) ∧
    (OnCreateSessionComplete gi SessionName Success).1 = gi := by
  cases Success <;>
    simp [OnCreateSessionComplete, sessionRequests, travels, Call.isSessionRequest,
      Call.isTravel]

end BnB
